import Mathlib

/-!
Verification development for the tiered data-access and caching layer of the
ai-trader repository.  The Python source (smart_data_manager.py,
real_options_pricing.py, polygon_data_provider.py) is shallowly embedded:
mutable object state becomes explicit state passing, machine floats become
rationals, network calls and library calls (yfinance, requests, pandas)
become explicit outcome parameters, and Python exceptions become outcome
constructors.  Every definition is translated from the source; spec-side
definitions used for refinement checks are clearly marked.
-/

namespace AITrader

/-! ### Generic helpers: Python dict as an association list, rounding, pandas tails -/

/-- Lookup in a Python dict modelled as an association list (most recent
insertion first). -/
def dictGet {α : Type} : List (String × α) → String → Option α
  | [], _ => none
  | (k, v) :: rest, key => if k = key then some v else dictGet rest key

/-- Assignment `d[key] = v` on a Python dict: the new binding replaces any
previous binding of the same key. -/
def dictPut {α : Type} (c : List (String × α)) (key : String) (v : α) :
    List (String × α) :=
  (key, v) :: c.filter (fun p => p.1 ≠ key)

/-- Python `round(x, d)`.  Python uses banker's rounding at exact .5 ties;
round-half-up is used here, which agrees with Python off ties (no claim in
this development evaluates a tie). -/
def pyRound (d : Nat) (x : ℚ) : ℚ := ((round (x * 10 ^ d) : ℤ) : ℚ) / 10 ^ d

/-- pandas `Series.tail(n)`: the last `n` elements. -/
def takeLast {α : Type} (n : Nat) (l : List α) : List α := l.drop (l.length - n)

/-- pandas `Series.mean()` (only applied to nonempty series in the flows
modelled here). -/
def listMean (l : List ℚ) : ℚ := l.sum / l.length

/-- `iloc[-1]` on a nonempty series. -/
def lastElem (l : List ℚ) : ℚ := l.getLastD 0

/-- `iloc[-2]` on a series of length at least 2. -/
def secondLastElem (l : List ℚ) : ℚ := l.dropLast.getLastD 0

/-- pandas `Series.pct_change().dropna()`: successive relative changes. -/
def pctChange : List ℚ → List ℚ
  | a :: b :: rest => (b - a) / a :: pctChange (b :: rest)
  | _ => []

/-! ### Data model shared by the manager (smart_data_manager.py) -/

/-- Price-bar table (a pandas DataFrame) with the two capitalization
conventions probed by `calculate_enhanced_metrics`: Yahoo uses
`Close`/`Volume`, Tiingo uses `close`/`volume`.  A column that is absent
from the frame is `none`. -/
structure PriceTable where
  closeU : Option (List ℚ)
  volumeU : Option (List ℚ)
  closeL : Option (List ℚ)
  volumeL : Option (List ℚ)
deriving DecidableEq, Repr

/-- `DataFrame.empty`: no rows (all columns absent or empty). -/
def PriceTable.isEmpty (t : PriceTable) : Bool :=
  (t.closeU.getD []).isEmpty && (t.volumeU.getD []).isEmpty &&
  (t.closeL.getD []).isEmpty && (t.volumeL.getD []).isEmpty

/-- Canonical stock payload: the dict returned by
`SmartDataManager.get_stock_data` (and by the Tiingo provider), with its
`price_data` frame and metadata name.  `source` holds the value
`payload.get('source', 'unknown')` would produce — both readers of the key
(smart_data_manager.py lines 184 and 256) go through that get: "yahoo" for
the Yahoo-built payload, and "unknown" for a Tiingo payload, whose dict
carries no source key at all (tiingo_data_provider.py lines 77-83). -/
structure StockData where
  symbol : String
  source : String
  priceTable : Option PriceTable
  name : String
deriving DecidableEq, Repr

/-- One value of `self.cache[cache_key]`: a dict
`{'data': ..., 'timestamp': ..., 'source': ...}`. -/
structure CacheEntry where
  data : StockData
  timestamp : ℤ
  source : String
deriving DecidableEq, Repr

/-- State of a `SmartDataManager` instance: the usage counters, the latch and
the in-memory cache (smart_data_manager.py lines 21-29). -/
structure SDM where
  tiingoRequestsUsed : Nat
  tiingoHourlyLimit : Nat
  tiingoDailyLimit : Nat
  fallbackActive : Bool
  cache : List (String × CacheEntry)
deriving DecidableEq, Repr

/-- A freshly constructed manager: `tiingo_requests_used = 0`,
`tiingo_hourly_limit = 50`, `tiingo_daily_limit = 1000`,
`fallback_active = False`, empty cache. -/
def freshSDM : SDM :=
  { tiingoRequestsUsed := 0, tiingoHourlyLimit := 50, tiingoDailyLimit := 1000,
    fallbackActive := false, cache := [] }

/-- `SmartDataManager._check_tiingo_limits` (lines 36-43): returns whether
Tiingo may be used; as a side effect it latches `fallback_active` when the
hourly counter has reached the hourly limit.  Note that the function reads
no clock and never consults `tiingo_daily_limit`. -/
def checkTiingoLimits (s : SDM) : Bool × SDM :=
  if s.tiingoHourlyLimit ≤ s.tiingoRequestsUsed then
    (false, { s with fallbackActive := true })
  else
    (true, s)

/-- `SmartDataManager._get_cache_key` (lines 45-47). -/
def cacheKey (symbol dataType startDate endDate : String) : String :=
  symbol ++ "_" ++ dataType ++ "_" ++ startDate ++ "_" ++ endDate

/-- `SmartDataManager._is_cache_valid` (lines 49-56): an entry is valid iff
it exists and its age in minutes is strictly below `max_age_minutes`.  Wall
clock times are modelled at whole-second resolution as integers; for
nonnegative whole-second ages the integer comparison
`(now - t) / 60 < maxAge` agrees with the source's float comparison. -/
def isCacheValid (cache : List (String × CacheEntry)) (key : String)
    (now : ℤ) (maxAgeMinutes : ℤ) : Bool :=
  match dictGet cache key with
  | none => false
  | some e => decide ((now - e.timestamp) / 60 < maxAgeMinutes)

/-- `SmartDataManager.reset_hourly_usage` (lines 290-294): the explicit,
manually invoked reset. -/
def resetHourlyUsage (s : SDM) : SDM :=
  { s with tiingoRequestsUsed := 0, fallbackActive := false }

/-- Outcome of a Tiingo provider call inside a `try` block: a truthy payload,
a falsy payload (`if data:` fails), or a raised exception. -/
inductive TiingoOutcome where
  | success (d : StockData)
  | noData
  | error
deriving DecidableEq, Repr

/-- Outcome of the yfinance history call inside the Yahoo fallback `try`
block: a history frame plus metadata name, or a raised exception. -/
inductive YahooOutcome where
  | success (hist : PriceTable) (name : String)
  | error
deriving DecidableEq, Repr

/-- Provider contacts observable from outside (network fetches issued). -/
inductive Event where
  | tiingoStock (sym : String)
  | yahooStock (sym : String)
  | tiingoFund (sym : String)
deriving DecidableEq, Repr

/-- Whether an event is a Yahoo fetch. -/
def Event.isYahoo : Event → Bool
  | .yahooStock _ => true
  | _ => false

/-- Whether an event is a Tiingo contact (stock or fundamentals). -/
def Event.isTiingo : Event → Bool
  | .tiingoStock _ => true
  | .tiingoFund _ => true
  | _ => false

/-- Result of one `get_stock_data` / `get_fundamentals` call: the returned
payload (None becomes `none`), the successor manager state, and the provider
contacts made during the call. -/
structure FetchResult where
  data : Option StockData
  state : SDM
  events : List Event
deriving DecidableEq, Repr

/-- Yahoo fallback block of `SmartDataManager.get_stock_data`
(lines 99-135): fetch history; an empty frame or an exception yields None,
otherwise the payload is normalized into the Tiingo-like dict, cached with
source tag "yahoo", and returned. -/
def yahooFetchStock (s : SDM) (sym key : String) (resp : YahooOutcome)
    (now : ℤ) : FetchResult :=
  match resp with
  | .success hist name =>
      if hist.isEmpty then
        { data := none, state := s, events := [.yahooStock sym] }
      else
        let d : StockData := { symbol := sym, source := "yahoo",
                               priceTable := some hist, name := name }
        let e : CacheEntry := { data := d, timestamp := now, source := "yahoo" }
        { data := some d,
          state := { s with cache := dictPut s.cache key e },
          events := [.yahooStock sym] }
  | .error => { data := none, state := s, events := [.yahooStock sym] }

/-- `SmartDataManager.get_stock_data` (lines 58-135).  `tng` and `yh` are the
outcomes the two providers would produce if contacted; `now` is
`time.time()` during the call (the call is modelled at one instant).  The
cache-hit branch returns the cached payload before any provider-selection
logic runs.  `use_tiingo = not force_yahoo and self._check_tiingo_limits()
and not self.fallback_active`, with the short-circuit evaluation order of
Python (the limit check, and its latching side effect, only run when
`force_yahoo` is false). -/
def getStockData (s : SDM) (sym startDate endDate : String)
    (forceYahoo : Bool) (tng : TiingoOutcome) (yh : YahooOutcome)
    (now : ℤ) : FetchResult :=
  let key := cacheKey sym "stock" startDate endDate
  if isCacheValid s.cache key now 60 then
    { data := (dictGet s.cache key).map CacheEntry.data, state := s, events := [] }
  else
    let c := if forceYahoo then (false, s) else checkTiingoLimits s
    let s1 := c.2
    if c.1 && !s1.fallbackActive then
      match tng with
      | .success d =>
          let e : CacheEntry := { data := d, timestamp := now, source := "tiingo" }
          { data := some d,
            state := { s1 with
                       tiingoRequestsUsed := s1.tiingoRequestsUsed + 1,
                       cache := dictPut s1.cache key e },
            events := [.tiingoStock sym] }
      | .noData =>
          let r := yahooFetchStock s1 sym key yh now
          { r with events := .tiingoStock sym :: r.events }
      | .error =>
          let r := yahooFetchStock s1 sym key yh now
          { r with events := .tiingoStock sym :: r.events }
    else
      yahooFetchStock s1 sym key yh now

/-- `SmartDataManager.get_fundamentals` (lines 137-176): 4-hour cache,
Tiingo only; returns None when the limit check fails or the fallback latch
is set (the check's latching side effect still applies). -/
def getFundamentals (s : SDM) (sym startDate endDate : String)
    (tng : TiingoOutcome) (now : ℤ) : FetchResult :=
  let key := cacheKey sym "fundamentals" startDate endDate
  if isCacheValid s.cache key now 240 then
    { data := (dictGet s.cache key).map CacheEntry.data, state := s, events := [] }
  else
    let c := checkTiingoLimits s
    let s1 := c.2
    if !c.1 || s1.fallbackActive then
      { data := none, state := s1, events := [] }
    else
      match tng with
      | .success d =>
          let e : CacheEntry := { data := d, timestamp := now, source := "tiingo" }
          { data := some d,
            state := { s1 with
                       tiingoRequestsUsed := s1.tiingoRequestsUsed + 1,
                       cache := dictPut s1.cache key e },
            events := [.tiingoFund sym] }
      | .noData => { data := none, state := s1, events := [.tiingoFund sym] }
      | .error => { data := none, state := s1, events := [.tiingoFund sym] }

/-! ### calculate_enhanced_metrics (smart_data_manager.py lines 178-229) -/

/-- Successful metrics dict built at lines 217-225. -/
structure EnhancedMetrics where
  current_price : ℚ
  price_change_1d : ℚ
  volatility_30d : ℚ
  volume_ratio : ℚ
  price_vs_sma20 : ℚ
  price_vs_sma50 : ℚ
  data_quality : String
deriving DecidableEq, Repr

/-- Result of `calculate_enhanced_metrics`: the empty dict (line 181), the
error dict (line 229, when the `try` block raises), or the full metrics
dict. -/
inductive MetricsResult where
  | empty
  | error (data_quality : String)
  | ok (m : EnhancedMetrics)
deriving DecidableEq, Repr

/-- Body of the `try` block of `calculate_enhanced_metrics` (lines 194-225),
applied to the close and volume columns chosen by the capitalization probe.
`stdDev` stands for pandas `Series.std()` and `sqrt252` for `np.sqrt(252)`,
which are irrational-valued library calls kept as parameters of the model.
A missing close column raises KeyError and fewer than two closes raises
IndexError at `iloc[-2]`; both exceptions are caught at line 227 and produce
the error dict. -/
def metricsFromCols (stdDev : List ℚ → ℚ) (sqrt252 : ℚ)
    (closeCol volCol : Option (List ℚ)) (source : String) : MetricsResult :=
  match closeCol with
  | none => .error ("Error (" ++ source.capitalize ++ ")")
  | some c =>
    if c.length < 2 then .error ("Error (" ++ source.capitalize ++ ")")
    else
      let currentPrice := lastElem c
      let prev := secondLastElem c
      let change1d := (lastElem c - prev) / prev * 100
      let rets := pctChange c
      let vol30 := stdDev (takeLast 30 rets) * sqrt252 * 100
      let ratioE : Except Unit ℚ :=
        match volCol with
        | some v =>
            if v.isEmpty then .error ()
            else
              let avg := listMean (takeLast 30 v)
              .ok (if 0 < avg then lastElem v / avg else 1)
        | none => .ok 1
      match ratioE with
      | .error _ => .error ("Error (" ++ source.capitalize ++ ")")
      | .ok ratio =>
        let sma20 := listMean (takeLast 20 c)
        let sma50 := listMean (takeLast 50 c)
        .ok { current_price := pyRound 2 currentPrice,
              price_change_1d := pyRound 2 change1d,
              volatility_30d := pyRound 1 vol30,
              volume_ratio := pyRound 2 ratio,
              price_vs_sma20 := pyRound 1 ((currentPrice - sma20) / sma20 * 100),
              price_vs_sma50 := pyRound 1 ((currentPrice - sma50) / sma50 * 100),
              data_quality := "Enhanced (" ++ source.capitalize ++ ")" }

/-- `SmartDataManager.calculate_enhanced_metrics` (lines 178-229): guard for
a missing payload or missing `price_data`, then the capitalization probe
`close_col = 'Close' if 'Close' in df.columns else 'close'` (and likewise
`Volume`/`volume`), then the metrics body. -/
def calculateEnhancedMetrics (stdDev : List ℚ → ℚ) (sqrt252 : ℚ)
    (stockData : Option StockData) : MetricsResult :=
  match stockData with
  | none => .empty
  | some d =>
    match d.priceTable with
    | none => .empty
    | some df =>
      if df.closeU.isSome then
        metricsFromCols stdDev sqrt252 df.closeU df.volumeU d.source
      else
        metricsFromCols stdDev sqrt252 df.closeL df.volumeL d.source

/-- Projection used to inspect the canonical `volume_ratio` field of a
metrics result. -/
def volumeRatioOf : MetricsResult → Option ℚ
  | .ok m => some m.volume_ratio
  | _ => none

/-! ### batch_analyze_symbols (smart_data_manager.py lines 231-277) -/

/-- The provider responses one symbol of a batch run would receive. -/
structure SymOracle where
  stock : TiingoOutcome
  yahoo : YahooOutcome
  fund : TiingoOutcome
deriving Repr

/-- One value of the `results` dict built at lines 252-257 (with the
fundamentals field possibly filled at line 263). -/
structure BatchEntry where
  symbol : String
  stockData : StockData
  enhancedMetrics : MetricsResult
  fundamentals : Option StockData
  dataSource : String
deriving DecidableEq, Repr

/-- Body of one iteration of the symbol loop of `batch_analyze_symbols`
(lines 240-270), after the stock fetch produced `r`: a None result hits
`continue`, skipping the metrics, the results entry, the fundamentals fetch
and the rate-limit check; otherwise the metrics are computed, the entry is
recorded, fundamentals are fetched when requested and the fallback latch is
clear, and finally `fallback_active` is latched once
`tiingo_requests_used >= tiingo_hourly_limit - 2`. -/
def batchStepAfter (stdDev : List ℚ → ℚ) (sqrt252 : ℚ)
    (includeFundamentals : Bool) (fundStart fundEnd : String) (now : ℤ)
    (acc : List BatchEntry × SDM × List Event) (item : String × SymOracle)
    (r : FetchResult) : List BatchEntry × SDM × List Event :=
  match r.data with
  | none => (acc.1, r.state, acc.2.2 ++ r.events)
  | some d =>
    let m := calculateEnhancedMetrics stdDev sqrt252 (some d)
    let fr :=
      if includeFundamentals && !r.state.fallbackActive then
        getFundamentals r.state item.1 fundStart fundEnd item.2.fund now
      else
        { data := none, state := r.state, events := [] }
    let entry : BatchEntry :=
      { symbol := item.1, stockData := d, enhancedMetrics := m,
        fundamentals := fr.data, dataSource := d.source }
    let s3 :=
      if fr.state.tiingoHourlyLimit - 2 ≤ fr.state.tiingoRequestsUsed then
        { fr.state with fallbackActive := true }
      else
        fr.state
    (acc.1 ++ [entry], s3, acc.2.2 ++ r.events ++ fr.events)

/-- One iteration of the symbol loop, entry point: fetch the stock data for
the symbol (never forcing Yahoo), then run the rest of the body. -/
def batchStep (stdDev : List ℚ → ℚ) (sqrt252 : ℚ) (includeFundamentals : Bool)
    (startDate endDate fundStart fundEnd : String) (now : ℤ)
    (acc : List BatchEntry × SDM × List Event) (item : String × SymOracle) :
    List BatchEntry × SDM × List Event :=
  batchStepAfter stdDev sqrt252 includeFundamentals fundStart fundEnd now acc item
    (getStockData acc.2.1 item.1 startDate endDate false item.2.stock item.2.yahoo now)

/-- `SmartDataManager.batch_analyze_symbols` (lines 231-277): the symbol
loop, started from manager state `s`. -/
def batchAnalyzeSymbols (stdDev : List ℚ → ℚ) (sqrt252 : ℚ)
    (includeFundamentals : Bool) (startDate endDate fundStart fundEnd : String)
    (now : ℤ) (s : SDM) (items : List (String × SymOracle)) :
    List BatchEntry × SDM × List Event :=
  items.foldl
    (batchStep stdDev sqrt252 includeFundamentals startDate endDate fundStart fundEnd now)
    ([], s, [])

/-! ### Operation traces over one manager instance (for quota claims) -/

/-- An operation an operator or caller performs on the manager: a stock
request (with the wall-clock time of the call, Tiingo succeeding if
contacted) or an explicit `reset_hourly_usage` call. -/
inductive Op where
  | fetch (sym : String) (t : ℤ)
  | reset
deriving Repr

/-- Placeholder payload a successful Tiingo stock call returns.  Its
`source` is "unknown": the Tiingo payload dict has no source key, so
`.get('source', 'unknown')` yields the default. -/
def stubStock (sym : String) : StockData :=
  { symbol := sym, source := "unknown", priceTable := none, name := "n" }

/-- Run one operation; returns the successor state and the number of Tiingo
contacts the operation made. -/
def runOp (s : SDM) : Op → SDM × Nat
  | .fetch sym t =>
      let r := getStockData s sym "d1" "d2" false (.success (stubStock sym)) .error t
      (r.state, (r.events.filter Event.isTiingo).length)
  | .reset => (resetHourlyUsage s, 0)

/-- Run a list of operations, accumulating the total number of Tiingo
contacts. -/
def runTrace (s : SDM) (ops : List Op) : SDM × Nat :=
  ops.foldl (fun acc op => let r := runOp acc.1 op; (r.1, acc.2 + r.2)) (s, 0)

/-- Fifty distinct symbols, one batch screen's worth. -/
def daySymbols : List String := (List.range 50).map (fun i => "S" ++ toString i)

/-- One hour of operator activity at wall-clock time `t`: a screen over the
fifty symbols followed by the hourly `reset_hourly_usage` call the source
docstring tells the operator to schedule ("call this manually or set up a
timer"). -/
def hourRound (t : ℤ) : List Op :=
  daySymbols.map (fun sym => Op.fetch sym t) ++ [Op.reset]

/-- Twenty-one hourly rounds, 61 minutes (3660 s) apart, spanning 20 hours
and 20 minutes — strictly inside one 24-hour day. -/
def dayTrace : List Op :=
  ((List.range 21).map (fun r => hourRound ((r : ℤ) * 3660))).flatten

/-- A manager whose hourly quota is exhausted and whose fallback latch is
set: the state reached after 50 successful Tiingo calls in one window. -/
def exhaustedSDM : SDM :=
  { tiingoRequestsUsed := 50, tiingoHourlyLimit := 50, tiingoDailyLimit := 1000,
    fallbackActive := true, cache := [] }

/-! ### polygon_data_provider.py: PolygonDataProvider.get_option_price -/

/-- The dataclass `PolygonOptionData` (polygon_data_provider.py lines
17-40). -/
structure PolygonOptionData where
  symbol : String
  underlying_ticker : String
  strike : ℚ
  expiry : String
  option_type : String
  last_price : ℚ
  bid : ℚ
  ask : ℚ
  mid_price : ℚ
  volume : ℚ
  open_interest : ℚ
  implied_volatility : ℚ
  delta : Option ℚ
  gamma : Option ℚ
  theta : Option ℚ
  vega : Option ℚ
  rho : Option ℚ
  intrinsic_value : ℚ
  time_value : ℚ
  days_to_expiry : ℤ
  underlying_price : ℚ
  timestamp : String
deriving DecidableEq, Repr

/-- Response of the contracts reference lookup (lines 251-267): a non-200
status, an empty results list, or the matching contract ticker. -/
inductive ContractsResp where
  | httpError
  | noContracts
  | found (ticker : String)
deriving DecidableEq, Repr

/-- Response of the option aggregates query (lines 274-291): a non-200
status, a 200 with an empty results list, or the latest daily bar (close
and volume). -/
inductive AggsResp where
  | httpError
  | noResults
  | bar (close volume : ℚ)
deriving DecidableEq, Repr

/-- `PolygonDataProvider.get_option_price` (lines 225-343).  `optionSymbol`
stands for the formatted instrument code built at line 237 and
`daysToExpiry` for `(strptime(expiry) - now).days` (line 310); `underlying`
is the `current_price` carried by `get_stock_data(underlying_symbol)` when
that call returns data (line 298 substitutes 0 otherwise); `ts` is
`datetime.now().isoformat()`.  Note the two aggregates failure modes differ:
a non-200 status returns None, while a 200 with no results leaves
`last_price` and `volume` at their initializer value 0 and still builds a
quote.  `bid` and `ask` stay 0 and `mid_price = last_price` (line 294);
`open_interest` and `implied_volatility` are hard-coded 0 and every greek is
None (lines 324-330). -/
def polygonGetOptionPrice (underlyingSymbol : String) (strike : ℚ)
    (expiry optionType optionSymbol : String)
    (contracts : ContractsResp) (aggs : AggsResp) (underlying : Option ℚ)
    (daysToExpiry : ℤ) (ts : String) : Option PolygonOptionData :=
  match contracts with
  | .httpError => none
  | .noContracts => none
  | .found _ =>
    let lastVol : Option (ℚ × ℚ) :=
      match aggs with
      | .httpError => none
      | .noResults => some (0, 0)
      | .bar c v => some (c, v)
    match lastVol with
    | none => none
    | some (lastPrice, volume) =>
      let midPrice := lastPrice
      let underlyingPrice := underlying.getD 0
      let intrinsic :=
        if optionType = "CALL" then max 0 (underlyingPrice - strike)
        else max 0 (strike - underlyingPrice)
      let timeValue := max 0 (midPrice - intrinsic)
      some
        { symbol := optionSymbol, underlying_ticker := underlyingSymbol,
          strike := strike, expiry := expiry, option_type := optionType,
          last_price := lastPrice, bid := 0, ask := 0, mid_price := midPrice,
          volume := volume, open_interest := 0, implied_volatility := 0,
          delta := none, gamma := none, theta := none, vega := none,
          rho := none, intrinsic_value := intrinsic, time_value := timeValue,
          days_to_expiry := daysToExpiry, underlying_price := underlyingPrice,
          timestamp := ts }

/-! ### real_options_pricing.py: RealOptionsPricer -/

/-- The dataclass `OptionData` (real_options_pricing.py lines 18-38). -/
structure OptionData where
  symbol : String
  strike : ℚ
  expiry : String
  option_type : String
  last_price : ℚ
  bid : ℚ
  ask : ℚ
  mid_price : ℚ
  volume : ℚ
  open_interest : ℚ
  implied_volatility : ℚ
  delta : Option ℚ
  theta : Option ℚ
  gamma : Option ℚ
  vega : Option ℚ
  intrinsic_value : ℚ
  time_value : ℚ
  days_to_expiry : ℤ
  moneyness : ℚ
deriving DecidableEq, Repr

/-- One row of a yfinance options chain for the requested strike.  A `none`
field is a pandas NaN (the `pd.isna` guards substitute defaults for those);
`last` (the `lastPrice` column) is modelled as a number — a NaN
`lastPrice` is not representable over ℚ (it would poison `mid_price` at
line 150 before the line-172 guard). -/
structure YahooOptionRow where
  bid : Option ℚ
  ask : Option ℚ
  last : ℚ
  volume : Option ℚ
  openInterest : Option ℚ
  iv : Option ℚ
  delta : Option ℚ
  theta : Option ℚ
  gamma : Option ℚ
  vega : Option ℚ
deriving DecidableEq, Repr

/-- Yahoo branch of `RealOptionsPricer.get_real_option_price` (lines
145-187): derivation of bid, ask, mid, intrinsic value, time value and
moneyness from one chain row, and construction of the `OptionData`
object.  `currentPrice` is the last close of the underlying. -/
def mkYahooOptionData (sym : String) (strike : ℚ) (expiry optionType : String)
    (currentPrice : ℚ) (row : YahooOptionRow) (daysToExpiry : ℤ) : OptionData :=
  let bid := row.bid.getD 0
  let ask := row.ask.getD 0
  let midPrice := if 0 < bid ∧ 0 < ask then (bid + ask) / 2 else row.last
  let intrinsic :=
    if optionType = "CALL" then max 0 (currentPrice - strike)
    else max 0 (strike - currentPrice)
  let moneyness :=
    if optionType = "CALL" then currentPrice / strike else strike / currentPrice
  let timeValue := max 0 (midPrice - intrinsic)
  { symbol := sym, strike := strike, expiry := expiry,
    option_type := optionType, last_price := row.last, bid := bid, ask := ask,
    mid_price := midPrice, volume := row.volume.getD 0,
    open_interest := row.openInterest.getD 0,
    implied_volatility := row.iv.getD 0, delta := row.delta,
    theta := row.theta, gamma := row.gamma, vega := row.vega,
    intrinsic_value := intrinsic, time_value := timeValue,
    days_to_expiry := daysToExpiry, moneyness := moneyness }

/-- Conversion of a Polygon quote into the pricer's `OptionData` (lines
82-102), including the moneyness derivation at line 101. -/
def convertPolygonOption (p : PolygonOptionData) : OptionData :=
  { symbol := p.symbol, strike := p.strike, expiry := p.expiry,
    option_type := p.option_type, last_price := p.last_price, bid := p.bid,
    ask := p.ask, mid_price := p.mid_price, volume := p.volume,
    open_interest := p.open_interest,
    implied_volatility := p.implied_volatility, delta := p.delta,
    theta := p.theta, gamma := p.gamma, vega := p.vega,
    intrinsic_value := p.intrinsic_value, time_value := p.time_value,
    days_to_expiry := p.days_to_expiry,
    moneyness :=
      if p.option_type = "CALL" then p.underlying_price / p.strike
      else p.strike / p.underlying_price }

/-- Outcome of the Yahoo fallback branch of the pricer (lines 113-199):
the outer `try` raises; the underlying history is empty (line 122);
`option_chain(expiry)` raises (line 131); the strike row is absent
(line 141); or a row is found (with the underlying's last close). -/
inductive YahooChainResp where
  | raised
  | noStock
  | noChain (currentPrice : ℚ)
  | strikeMissing (currentPrice : ℚ)
  | row (currentPrice : ℚ) (r : YahooOptionRow)
deriving DecidableEq, Repr

/-- Pricer cache: `cache_key -> (OptionData, cached_time)` with
`cache_duration = 300` seconds. -/
abbrev PricerCache := List (String × (OptionData × ℤ))

/-- `RealOptionsPricer.get_real_option_price` (lines 62-199): check the
5-minute cache; then, when Polygon is available, try it (an exception or a
None result falls through to Yahoo); then the Yahoo fallback.  Returns the
quote (None on total failure) and the successor cache.  `polygonResp` is
`Except.error ()` when the Polygon call raises, otherwise the Option it
returned. -/
def getRealOptionPrice (cache : PricerCache) (now : ℤ) (sym : String)
    (strike : ℚ) (expiry optionType : String) (polygonAvailable : Bool)
    (polygonResp : Except Unit (Option PolygonOptionData))
    (yahooResp : YahooChainResp) (daysToExpiry : ℤ) :
    Option OptionData × PricerCache :=
  let key := sym ++ "_" ++ toString strike ++ "_" ++ expiry ++ "_" ++ optionType
  let cached : Option OptionData :=
    match dictGet cache key with
    | some (od, cachedTime) =>
        if now - cachedTime < 300 then some od else none
    | none => none
  match cached with
  | some od => (some od, cache)
  | none =>
    let viaPolygon : Option OptionData :=
      if polygonAvailable then
        match polygonResp with
        | .ok (some pd) => some (convertPolygonOption pd)
        | .ok none => none
        | .error _ => none
      else none
    match viaPolygon with
    | some od => (some od, dictPut cache key (od, now))
    | none =>
      match yahooResp with
      | .raised => (none, cache)
      | .noStock => (none, cache)
      | .noChain _ => (none, cache)
      | .strikeMissing _ => (none, cache)
      | .row currentPrice r =>
          let od := mkYahooOptionData sym strike expiry optionType currentPrice r daysToExpiry
          (some od, dictPut cache key (od, now))

/-! ### Spec-side normalizer rules (written from the specification text,
for refinement comparison with the code-derived quotes) -/

/-- Modelled from the spec: mid-price rule of section 4.3 — the average of
bid and ask when both are positive, otherwise the last trade price. -/
def specMid (bid ask last : ℚ) : ℚ :=
  if 0 < bid ∧ 0 < ask then (bid + ask) / 2 else last

/-- Modelled from the spec: intrinsic-value rule of section 4.3. -/
def specIntrinsic (optionType : String) (underlying strike : ℚ) : ℚ :=
  if optionType = "CALL" then max 0 (underlying - strike)
  else max 0 (strike - underlying)

/-- Modelled from the spec: time-value rule of section 4.3. -/
def specTimeValue (mid intrinsic : ℚ) : ℚ := max 0 (mid - intrinsic)

/-- Modelled from the spec: moneyness rule of section 4.3. -/
def specMoneyness (optionType : String) (underlying strike : ℚ) : ℚ :=
  if optionType = "CALL" then underlying / strike else strike / underlying

/-! ### Concrete fixtures used by witnesses and counterexamples -/

/-- Fifty fresh stock requests at time 0 (one exhausts the hourly quota). -/
def fiftyFetches : List Op := daySymbols.map (fun sym => Op.fetch sym 0)

/-- The Polygon quote built for SPY 655 CALL from a delayed bar with close
2.50 and volume 10, underlying at 650. -/
def samplePolygonQuote : PolygonOptionData :=
  { symbol := "O", underlying_ticker := "SPY", strike := 655,
    expiry := "2025-08-29", option_type := "CALL", last_price := 5/2,
    bid := 0, ask := 0, mid_price := 5/2, volume := 10, open_interest := 0,
    implied_volatility := 0, delta := none, gamma := none, theta := none,
    vega := none, rho := none, intrinsic_value := 0, time_value := 5/2,
    days_to_expiry := 30, underlying_price := 650, timestamp := "ts" }

/-- The Polygon quote built for AAPL 210 PUT from a delayed bar with close
3.20 and volume 7, underlying at 200. -/
def samplePutQuote : PolygonOptionData :=
  { symbol := "O9", underlying_ticker := "AAPL", strike := 210,
    expiry := "2026-01-16", option_type := "PUT", last_price := 16/5,
    bid := 0, ask := 0, mid_price := 16/5, volume := 7, open_interest := 0,
    implied_volatility := 0, delta := none, gamma := none, theta := none,
    vega := none, rho := none, intrinsic_value := 10, time_value := 0,
    days_to_expiry := 96, underlying_price := 200, timestamp := "t9" }

/-- The Polygon quote built for QQQ 400 CALL from a delayed bar with close
12 and volume 3, underlying at 410. -/
def sampleCallQuote : PolygonOptionData :=
  { symbol := "O4", underlying_ticker := "QQQ", strike := 400,
    expiry := "2025-12-19", option_type := "CALL", last_price := 12,
    bid := 0, ask := 0, mid_price := 12, volume := 3, open_interest := 0,
    implied_volatility := 0, delta := none, gamma := none, theta := none,
    vega := none, rho := none, intrinsic_value := 10, time_value := 2,
    days_to_expiry := 60, underlying_price := 410, timestamp := "t4" }

/-- The Polygon quote built when the contract is found but the aggregates
query returns 200 with an empty results list: every price field is zero. -/
def zeroFilledQuote : PolygonOptionData :=
  { symbol := "O:SPY250829C00655000", underlying_ticker := "SPY",
    strike := 655, expiry := "2025-08-29", option_type := "CALL",
    last_price := 0, bid := 0, ask := 0, mid_price := 0, volume := 0,
    open_interest := 0, implied_volatility := 0, delta := none,
    gamma := none, theta := none, vega := none, rho := none,
    intrinsic_value := 0, time_value := 0, days_to_expiry := 17,
    underlying_price := 650, timestamp := "ts" }

/-- A yfinance chain row with bid 1.65 and ask 1.95. -/
def sampleRow : YahooOptionRow :=
  { bid := some 1.65, ask := some 1.95, last := 1.7, volume := some 5,
    openInterest := some 10, iv := some 0.2, delta := none, theta := none,
    gamma := none, vega := none }

/-- A yfinance chain row with real zero bid and ask and a last trade of
1.50. -/
def zeroBidRow : YahooOptionRow :=
  { bid := some 0, ask := some 0, last := 1.5, volume := some 5,
    openInterest := some 10, iv := some 0.2, delta := none, theta := none,
    gamma := none, vega := none }

/-- A manager holding one `SPY` stock entry cached at time 0. -/
def cachedMgr : SDM :=
  { freshSDM with
    cache := [(cacheKey "SPY" "stock" "d1" "d2",
               { data := stubStock "SPY", timestamp := 0, source := "tiingo" })] }

/-- A manager holding one `INTC` stock entry cached at time 100, with some
usage on the counter. -/
def cachedMgr2 : SDM :=
  { tiingoRequestsUsed := 7, tiingoHourlyLimit := 50, tiingoDailyLimit := 1000,
    fallbackActive := false,
    cache := [(cacheKey "INTC" "stock" "a" "b",
               { data := stubStock "INTC", timestamp := 100, source := "tiingo" })] }

/-- A pricer quote cached under the SPY 655 CALL key. -/
def cachedQuote : OptionData :=
  { symbol := "SPY", strike := 655, expiry := "2025-08-29",
    option_type := "CALL", last_price := 1.7, bid := 1.65, ask := 1.95,
    mid_price := 1.8, volume := 5, open_interest := 10,
    implied_volatility := 0.2, delta := none, theta := none, gamma := none,
    vega := none, intrinsic_value := 0, time_value := 1.8,
    days_to_expiry := 30, moneyness := 650/655 }

/-- A pricer cache holding `cachedQuote`, inserted at time 0. -/
def pricerCache0 : PricerCache := [("SPY_655_2025-08-29_CALL", (cachedQuote, 0))]

/-- A price table with a `Close` column but no volume column in either
capitalization. -/
def noVolumeStock : StockData :=
  { symbol := "X", source := "yahoo",
    priceTable := some { closeU := some [100, 110], volumeU := none,
                         closeL := none, volumeL := none },
    name := "n" }

/-- A manager two requests short of the hourly ceiling, with a valid cached
entry for symbol `B` (cached, Tiingo-sourced, at time 0). -/
def nearLimitMgr : SDM :=
  { tiingoRequestsUsed := 48, tiingoHourlyLimit := 50, tiingoDailyLimit := 1000,
    fallbackActive := false,
    cache := [(cacheKey "B" "stock" "d1" "d2",
               { data := stubStock "B", timestamp := 0, source := "tiingo" })] }

/-- A two-symbol batch: `A` (Tiingo succeeds if contacted) then `B`. -/
def twoSymbolBatch : List (String × SymOracle) :=
  [("A", { stock := .success (stubStock "A"), yahoo := .error, fund := .error }),
   ("B", { stock := .error, yahoo := .error, fund := .error })]

/-! ## Theorems -/

/-- Helper: the two option-type tags differ. -/
theorem put_ne_call : ("PUT" : String) ≠ "CALL" := by decide

/-- C1 (counterexample): the quota check never recovers by itself.  From the
exhausted, latched state, a request two full hours after the (empty-window)
start — elapsed time well past the hourly window — is still denied Tiingo:
`_check_tiingo_limits` returns false (it reads no clock), the request is
routed to Yahoo only, and `requests_used` is still 50 with the fallback
latch still set.  The claim's automatic window rollover does not exist in
the code. -/
theorem c1_no_auto_recovery_counterexample :
    (checkTiingoLimits exhaustedSDM).1 = false
    ∧ (getStockData exhaustedSDM "SPY" "d1" "d2" false
        (.success (stubStock "SPY")) .error 7200).events = [Event.yahooStock "SPY"]
    ∧ (getStockData exhaustedSDM "SPY" "d1" "d2" false
        (.success (stubStock "SPY")) .error 7200).state.tiingoRequestsUsed = 50
    ∧ (getStockData exhaustedSDM "SPY" "d1" "d2" false
        (.success (stubStock "SPY")) .error 7200).state.fallbackActive = true := by
  decide

/-- C1 (amended): usage is zeroed and the fallback latch cleared only by an
explicit `reset_hourly_usage` call; after that call the budget check allows
Tiingo again (for any positive hourly limit).  No time-based rollover
exists. -/
theorem c1_reset_restores_allows (s : SDM) (h : 0 < s.tiingoHourlyLimit) :
    (checkTiingoLimits (resetHourlyUsage s)).1 = true
    ∧ (resetHourlyUsage s).tiingoRequestsUsed = 0
    ∧ (resetHourlyUsage s).fallbackActive = false := by
  refine ⟨?_, rfl, rfl⟩
  simp only [checkTiingoLimits, resetHourlyUsage]
  rw [if_neg (by omega)]

/-- C1 (witness): the amended reset property at the exhausted manager. -/
theorem c1_reset_restores_allows_witness :
    (checkTiingoLimits (resetHourlyUsage exhaustedSDM)).1 = true
    ∧ (resetHourlyUsage exhaustedSDM).tiingoRequestsUsed = 0
    ∧ (resetHourlyUsage exhaustedSDM).fallbackActive = false :=
  c1_reset_restores_allows exhaustedSDM (by decide)

/-- C3: the mid price of every quote equals `(bid + ask) / 2` when both bid
and ask are positive and the last trade price otherwise — for the Yahoo
fallback builder (for every chain row) and for every quote the Polygon path
produces (whose bid and ask are 0, so its mid is its last price); with the
claim's concrete instances bid 1.65 / ask 1.95 giving 1.80 and
bid 0 / ask 0 / last 1.50 giving 1.50. -/
theorem c3_mid_price_rule :
    (∀ sym strike expiry optionType cp row d,
      (mkYahooOptionData sym strike expiry optionType cp row d).mid_price
        = specMid (mkYahooOptionData sym strike expiry optionType cp row d).bid
            (mkYahooOptionData sym strike expiry optionType cp row d).ask
            (mkYahooOptionData sym strike expiry optionType cp row d).last_price)
    ∧ (∀ us strike expiry ot os c aggs u dd ts q,
        polygonGetOptionPrice us strike expiry ot os c aggs u dd ts = some q →
          q.mid_price = specMid q.bid q.ask q.last_price)
    ∧ (mkYahooOptionData "SPY" 655 "2025-08-29" "CALL" 650 sampleRow 30).mid_price = 1.8
    ∧ (mkYahooOptionData "SPY" 655 "2025-08-29" "CALL" 650 zeroBidRow 30).mid_price = 1.5 := by
  refine ⟨?_, ?_, by norm_num [mkYahooOptionData, sampleRow],
    by norm_num [mkYahooOptionData, zeroBidRow]⟩
  · intro sym strike expiry optionType cp row d
    simp [mkYahooOptionData, specMid]
  · intro us strike expiry ot os c aggs u dd ts q h
    cases c <;> cases aggs <;>
      simp_all [polygonGetOptionPrice, specMid] <;>
      simp [← h, specMid]

/-- C3 (witness): the Polygon clause at the SPY 655 CALL bar. -/
theorem c3_mid_price_rule_witness :
    samplePolygonQuote.mid_price
      = specMid samplePolygonQuote.bid samplePolygonQuote.ask
          samplePolygonQuote.last_price :=
  c3_mid_price_rule.2.1 "SPY" 655 "2025-08-29" "CALL" "O" (.found "T")
    (.bar (5/2) 10) (some 650) 30 "ts" samplePolygonQuote
    (by norm_num [polygonGetOptionPrice, samplePolygonQuote])

/-- C4: intrinsic value, time value and moneyness of every produced quote
follow the spec formulas — for the Yahoo builder (intrinsic
`max 0 (U - K)` for CALL and `max 0 (K - U)` otherwise, time value
`max 0 (mid - intrinsic)`, moneyness `U / K` for CALL and `K / U`
otherwise), for every quote of the Polygon path (against its fetched
underlying price), and for the pricer's conversion of a Polygon quote
(moneyness at line 101); with the claim's concrete instances: CALL strike
100 underlying 105 gives intrinsic 5, PUT with the same inputs gives 0. -/
theorem c4_derived_fields :
    (∀ sym strike expiry optionType cp row d,
      (mkYahooOptionData sym strike expiry optionType cp row d).intrinsic_value
          = specIntrinsic optionType cp strike
        ∧ (mkYahooOptionData sym strike expiry optionType cp row d).time_value
          = specTimeValue (mkYahooOptionData sym strike expiry optionType cp row d).mid_price
              (mkYahooOptionData sym strike expiry optionType cp row d).intrinsic_value
        ∧ (mkYahooOptionData sym strike expiry optionType cp row d).moneyness
          = specMoneyness optionType cp strike)
    ∧ (∀ us strike expiry ot os c aggs u dd ts q,
        polygonGetOptionPrice us strike expiry ot os c aggs u dd ts = some q →
          q.intrinsic_value = specIntrinsic ot q.underlying_price strike
          ∧ q.time_value = specTimeValue q.mid_price q.intrinsic_value)
    ∧ (∀ p, (convertPolygonOption p).moneyness
          = specMoneyness p.option_type p.underlying_price p.strike)
    ∧ (mkYahooOptionData "X" 100 "e" "CALL" 105 sampleRow 30).intrinsic_value = 5
    ∧ (mkYahooOptionData "X" 100 "e" "PUT" 105 sampleRow 30).intrinsic_value = 0 := by
  refine ⟨?_, ?_, ?_, by norm_num [mkYahooOptionData, sampleRow],
    by norm_num [mkYahooOptionData, sampleRow, put_ne_call]⟩
  · intro sym strike expiry optionType cp row d
    refine ⟨?_, ?_, ?_⟩ <;> simp [mkYahooOptionData, specIntrinsic, specTimeValue, specMoneyness]
  · intro us strike expiry ot os c aggs u dd ts q h
    cases c <;> cases aggs <;>
      simp_all [polygonGetOptionPrice, specIntrinsic, specTimeValue] <;>
      simp [← h, specIntrinsic, specTimeValue]
  · intro p
    simp [convertPolygonOption, specMoneyness]

/-- C4 (witness): the Polygon clause at the QQQ 400 CALL bar. -/
theorem c4_derived_fields_witness :
    sampleCallQuote.intrinsic_value
        = specIntrinsic "CALL" sampleCallQuote.underlying_price 400
      ∧ sampleCallQuote.time_value
        = specTimeValue sampleCallQuote.mid_price sampleCallQuote.intrinsic_value :=
  c4_derived_fields.2.1 "QQQ" 400 "2025-12-19" "CALL" "O4" (.found "T")
    (.bar 12 3) (some 410) 60 "t4" sampleCallQuote
    (by norm_num [polygonGetOptionPrice, sampleCallQuote])

/-- C9: every quote the Polygon adapter returns has bid 0, ask 0, mid equal
to last, open interest 0, implied volatility 0 and every greek (delta,
gamma, theta, vega, rho) None — genuinely zero market fields cannot be told
apart from unfetched ones. -/
theorem c9_polygon_quote_fields :
    ∀ us strike expiry ot os c aggs u dd ts q,
      polygonGetOptionPrice us strike expiry ot os c aggs u dd ts = some q →
        q.bid = 0 ∧ q.ask = 0 ∧ q.mid_price = q.last_price
        ∧ q.open_interest = 0 ∧ q.implied_volatility = 0
        ∧ q.delta = none ∧ q.gamma = none ∧ q.theta = none
        ∧ q.vega = none ∧ q.rho = none := by
  intro us strike expiry ot os c aggs u dd ts q h
  cases c <;> cases aggs <;>
    simp_all [polygonGetOptionPrice] <;>
    simp [← h]

/-- C9 (witness): the field pattern at the AAPL 210 PUT bar. -/
theorem c9_polygon_quote_fields_witness :
    samplePutQuote.bid = 0 ∧ samplePutQuote.ask = 0
    ∧ samplePutQuote.mid_price = samplePutQuote.last_price
    ∧ samplePutQuote.open_interest = 0
    ∧ samplePutQuote.implied_volatility = 0
    ∧ samplePutQuote.delta = none ∧ samplePutQuote.gamma = none
    ∧ samplePutQuote.theta = none ∧ samplePutQuote.vega = none
    ∧ samplePutQuote.rho = none :=
  c9_polygon_quote_fields "AAPL" 210 "2026-01-16" "PUT" "O9" (.found "T")
    (.bar (16/5) 7) (some 200) 96 "t9" samplePutQuote
    (by norm_num [polygonGetOptionPrice, samplePutQuote, put_ne_call])

/-- C6 (code_bug evaluation): when the Polygon contract lookup succeeds but
the aggregates query returns HTTP 200 with an empty results list (the
provider has no recent data for the contract), `get_option_price` does not
return None: it fabricates a quote whose last, bid, ask, mid, volume and
time value are all zero, and `get_real_option_price` forwards it to callers
as a successful institutional-grade quote — exactly the zero-filled object
the claim (and spec sections 4.4 and 7) forbids. -/
theorem c6_zero_filled_quote_on_missing_aggs :
    polygonGetOptionPrice "SPY" 655 "2025-08-29" "CALL" "O:SPY250829C00655000"
        (.found "O:SPY250829C00655000") .noResults (some 650) 17 "ts"
      = some zeroFilledQuote
    ∧ (getRealOptionPrice [] 0 "SPY" 655 "2025-08-29" "CALL" true
        (.ok (some zeroFilledQuote)) .raised 17).1
      = some (convertPolygonOption zeroFilledQuote)
    ∧ (convertPolygonOption zeroFilledQuote).last_price = 0
    ∧ (convertPolygonOption zeroFilledQuote).mid_price = 0
    ∧ (convertPolygonOption zeroFilledQuote).bid = 0
    ∧ (convertPolygonOption zeroFilledQuote).ask = 0
    ∧ (convertPolygonOption zeroFilledQuote).volume = 0
    ∧ (convertPolygonOption zeroFilledQuote).time_value = 0 := by
  refine ⟨by norm_num [polygonGetOptionPrice, zeroFilledQuote], ?_, ?_, ?_, ?_, ?_, ?_, ?_⟩ <;>
    norm_num [getRealOptionPrice, convertPolygonOption, zeroFilledQuote, dictGet, dictPut]

/-- C5: a cache get is a hit iff an entry exists for the key and its age is
strictly within the TTL (the general iff for `_is_cache_valid`), and a stale
entry is never returned.  Concretely: after a put at t=0 with a 60-minute
TTL, a get at t=0 is a hit returning the cached payload with no provider
contact, while a get at t=61min (3660 s) is a miss that triggers a refetch
(both providers are then contacted; with both failing nothing stale is
returned).  On the pricer side, with `cache_duration = 300` s, a quote
cached at t=0 is returned at t=299 and not at t=301. -/
theorem c5_cache_ttl :
    (∀ cache key now maxAge,
      isCacheValid cache key now maxAge = true
        ↔ ∃ e, dictGet cache key = some e ∧ (now - e.timestamp) / 60 < maxAge)
    ∧ isCacheValid cachedMgr.cache (cacheKey "SPY" "stock" "d1" "d2") 0 60 = true
    ∧ (getStockData cachedMgr "SPY" "d1" "d2" false .error .error 0).data
        = some (stubStock "SPY")
    ∧ (getStockData cachedMgr "SPY" "d1" "d2" false .error .error 0).events = []
    ∧ isCacheValid cachedMgr.cache (cacheKey "SPY" "stock" "d1" "d2") 3660 60 = false
    ∧ (getStockData cachedMgr "SPY" "d1" "d2" false .error .error 3660).data = none
    ∧ (getStockData cachedMgr "SPY" "d1" "d2" false .error .error 3660).events
        = [Event.tiingoStock "SPY", Event.yahooStock "SPY"]
    ∧ (getRealOptionPrice pricerCache0 299 "SPY" 655 "2025-08-29" "CALL" false
        (.error ()) .raised 30).1 = some cachedQuote
    ∧ (getRealOptionPrice pricerCache0 301 "SPY" 655 "2025-08-29" "CALL" false
        (.error ()) .raised 30).1 = none := by
  refine ⟨?_, by decide, by decide, by decide, by decide, by decide, by decide, ?_, ?_⟩
  · intro cache key now maxAge
    cases h : dictGet cache key <;> simp [isCacheValid, h]
  · rfl
  · rfl

/-- C7 (counterexample): feeding the normalizer a table whose `Close` column
is present but whose volume column is absent in both capitalizations does
not yield a null canonical field — the volume_ratio field of the returned
metrics dict is the silently substituted numeric default 1.0 (line 209). -/
theorem c7_missing_volume_counterexample :
    volumeRatioOf (calculateEnhancedMetrics (fun _ => 0) 0 (some noVolumeStock))
      = some 1 := by
  norm_num [calculateEnhancedMetrics, noVolumeStock, metricsFromCols,
    volumeRatioOf, pyRound]

/-- C7 (amended): the casing-equivalence half of the claim holds — two
tables holding the same close and volume values under the `Close`/`Volume`
and the `close`/`volume` conventions normalize to identical output, for
every stats library behavior; but when the volume column is absent the
canonical volume_ratio field is not null: it is defaulted to 1.0 (neither
null nor zero). -/
theorem c7_casing_equivalence_and_default :
    (∀ (stdDev : List ℚ → ℚ) (sqrt252 : ℚ) (sym src nm : String)
       (c : List ℚ) (v : Option (List ℚ)),
      calculateEnhancedMetrics stdDev sqrt252
          (some { symbol := sym, source := src,
                  priceTable := some { closeU := some c, volumeU := v,
                                       closeL := none, volumeL := none },
                  name := nm })
        = calculateEnhancedMetrics stdDev sqrt252
            (some { symbol := sym, source := src,
                    priceTable := some { closeU := none, volumeU := none,
                                         closeL := some c, volumeL := v },
                    name := nm }))
    ∧ (∀ (stdDev : List ℚ → ℚ) (sqrt252 : ℚ) (sym src nm : String)
         (c : List ℚ), 2 ≤ c.length →
        volumeRatioOf (calculateEnhancedMetrics stdDev sqrt252
            (some { symbol := sym, source := src,
                    priceTable := some { closeU := some c, volumeU := none,
                                         closeL := none, volumeL := none },
                    name := nm })) = some 1) := by
  constructor
  · intro stdDev sqrt252 sym src nm c v
    rfl
  · intro stdDev sqrt252 sym src nm c hc
    simp only [calculateEnhancedMetrics, Option.isSome_some, if_true, metricsFromCols]
    rw [if_neg (by omega : ¬ c.length < 2)]
    norm_num [volumeRatioOf, pyRound]

/-- C7 (witness): the amended statement at a concrete three-row close
series. -/
theorem c7_casing_equivalence_and_default_witness :
    volumeRatioOf (calculateEnhancedMetrics (fun _ => 0) 0
        (some { symbol := "Y", source := "tiingo",
                priceTable := some { closeU := some [50, 60, 70], volumeU := none,
                                     closeL := none, volumeL := none },
                name := "m" })) = some 1 :=
  c7_casing_equivalence_and_default.2 (fun _ => 0) 0 "Y" "tiingo" "m"
    [50, 60, 70] (by decide)

/-- C8: when the cache holds a valid entry for the request key,
`get_stock_data` returns the cached payload immediately: no provider is
contacted (the events list is empty and the result does not depend on the
provider outcomes or the force flag), and the manager state — the usage
counter, the fallback latch and every cache entry — is returned unchanged,
so replaying the request is a no-op. -/
theorem c8_cache_hit_frame :
    ∀ (s : SDM) (sym sd ed : String) (f : Bool) (tng : TiingoOutcome)
      (yh : YahooOutcome) (now : ℤ),
      isCacheValid s.cache (cacheKey sym "stock" sd ed) now 60 = true →
        getStockData s sym sd ed f tng yh now
          = { data := (dictGet s.cache (cacheKey sym "stock" sd ed)).map CacheEntry.data,
              state := s, events := [] } := by
  intro s sym sd ed f tng yh now h
  simp [getStockData, h]

/-- C8 (witness): the frame property at a manager with one valid `INTC`
entry, read 100 seconds after the put. -/
theorem c8_cache_hit_frame_witness :
    getStockData cachedMgr2 "INTC" "a" "b" false .error .error 200
      = { data := (dictGet cachedMgr2.cache (cacheKey "INTC" "stock" "a" "b")).map CacheEntry.data,
          state := cachedMgr2, events := [] } :=
  c8_cache_hit_frame cachedMgr2 "INTC" "a" "b" false .error .error 200 (by decide)

/-- Helper: the Yahoo fallback block leaves every counter and the latch
unchanged (it only touches the cache) and contacts exactly Yahoo. -/
theorem yahooFetchStock_spec (s : SDM) (sym key : String) (yh : YahooOutcome)
    (now : ℤ) :
    (yahooFetchStock s sym key yh now).state.tiingoRequestsUsed = s.tiingoRequestsUsed
    ∧ (yahooFetchStock s sym key yh now).state.tiingoHourlyLimit = s.tiingoHourlyLimit
    ∧ (yahooFetchStock s sym key yh now).state.fallbackActive = s.fallbackActive
    ∧ (yahooFetchStock s sym key yh now).events = [.yahooStock sym] := by
  cases yh with
  | success hist name =>
    by_cases he : hist.isEmpty = true <;> simp [yahooFetchStock, he]
  | error => exact ⟨rfl, rfl, rfl, rfl⟩

/-- Helper: one `get_stock_data` call preserves the hourly limit, increments
the counter only when the pre-state was strictly under the limit, and — when
the fallback latch is set on entry — keeps it set and contacts at most
Yahoo. -/
theorem getStockData_spec (s : SDM) (sym sd ed : String) (f : Bool)
    (tng : TiingoOutcome) (yh : YahooOutcome) (now : ℤ) :
    (getStockData s sym sd ed f tng yh now).state.tiingoHourlyLimit = s.tiingoHourlyLimit
    ∧ ((getStockData s sym sd ed f tng yh now).state.tiingoRequestsUsed = s.tiingoRequestsUsed
       ∨ (s.tiingoRequestsUsed < s.tiingoHourlyLimit
          ∧ (getStockData s sym sd ed f tng yh now).state.tiingoRequestsUsed
              = s.tiingoRequestsUsed + 1))
    ∧ (s.fallbackActive = true →
        (getStockData s sym sd ed f tng yh now).state.fallbackActive = true
        ∧ (getStockData s sym sd ed f tng yh now).events.all Event.isYahoo = true) := by
  have hy := yahooFetchStock_spec s sym (cacheKey sym "stock" sd ed) yh now
  have hyL := yahooFetchStock_spec { s with fallbackActive := true } sym
    (cacheKey sym "stock" sd ed) yh now
  unfold getStockData
  by_cases hv : isCacheValid s.cache (cacheKey sym "stock" sd ed) now 60 = true
  · simp [hv]
  · simp only [hv, if_false]
    cases f with
    | true =>
      refine ⟨hy.2.1, Or.inl hy.1, fun h => ⟨hy.2.2.1.trans h, ?_⟩⟩
      show (yahooFetchStock s sym (cacheKey sym "stock" sd ed) yh now).events.all
        Event.isYahoo = true
      rw [hy.2.2.2]; rfl
    | false =>
      by_cases hle : s.tiingoHourlyLimit ≤ s.tiingoRequestsUsed
      · have hc : checkTiingoLimits s = (false, { s with fallbackActive := true }) := by
          simp [checkTiingoLimits, hle]
        rw [hc]
        refine ⟨hyL.2.1, Or.inl hyL.1, fun _ => ⟨hyL.2.2.1, ?_⟩⟩
        show (yahooFetchStock { s with fallbackActive := true } sym
          (cacheKey sym "stock" sd ed) yh now).events.all Event.isYahoo = true
        rw [hyL.2.2.2]; rfl
      · have hc : checkTiingoLimits s = (true, s) := by
          simp [checkTiingoLimits, hle]
        rw [hc]
        simp only [Bool.false_eq_true, if_false]
        by_cases hf : s.fallbackActive = true
        · rw [hf]
          refine ⟨hy.2.1, Or.inl hy.1, fun _ => ⟨hy.2.2.1.trans hf, ?_⟩⟩
          show (yahooFetchStock s sym (cacheKey sym "stock" sd ed) yh now).events.all
            Event.isYahoo = true
          rw [hy.2.2.2]; rfl
        · have hf2 : s.fallbackActive = false := by
            revert hf; cases s.fallbackActive <;> simp
          rw [hf2]
          cases tng with
          | success d =>
            exact ⟨rfl, Or.inr ⟨by omega, rfl⟩, fun h => absurd h (by simp)⟩
          | noData =>
            exact ⟨hy.2.1, Or.inl hy.1, fun h => absurd h (by simp)⟩
          | error =>
            exact ⟨hy.2.1, Or.inl hy.1, fun h => absurd h (by simp)⟩

/-- Helper: one trace operation preserves the hourly limit and never pushes
the counter past it. -/
theorem runOp_spec (s : SDM) (op : Op) :
    (runOp s op).1.tiingoHourlyLimit = s.tiingoHourlyLimit
    ∧ (s.tiingoRequestsUsed ≤ s.tiingoHourlyLimit →
        (runOp s op).1.tiingoRequestsUsed ≤ s.tiingoHourlyLimit) := by
  cases op with
  | fetch sym t =>
    have h := getStockData_spec s sym "d1" "d2" false (.success (stubStock sym)) .error t
    refine ⟨h.1, fun hb => ?_⟩
    rcases h.2.1 with h2 | ⟨hlt, h2⟩ <;>
      · show (getStockData s sym "d1" "d2" false (.success (stubStock sym)) .error t).state.tiingoRequestsUsed ≤ s.tiingoHourlyLimit
        omega
  | reset => exact ⟨rfl, fun _ => Nat.zero_le _⟩

/-- Helper: along any operation trace the counter stays within the hourly
limit. -/
theorem runTraceAux_inv :
    ∀ (ops : List Op) (acc : SDM × Nat),
      acc.1.tiingoRequestsUsed ≤ acc.1.tiingoHourlyLimit →
      (ops.foldl (fun acc op => let r := runOp acc.1 op; (r.1, acc.2 + r.2)) acc).1.tiingoRequestsUsed
        ≤ (ops.foldl (fun acc op => let r := runOp acc.1 op; (r.1, acc.2 + r.2)) acc).1.tiingoHourlyLimit
  | [], _, h => h
  | op :: ops, acc, h => by
    have hs := runOp_spec acc.1 op
    exact runTraceAux_inv ops ((runOp acc.1 op).1, acc.2 + (runOp acc.1 op).2)
      (show (runOp acc.1 op).1.tiingoRequestsUsed
          ≤ (runOp acc.1 op).1.tiingoHourlyLimit by
        have h1 := hs.1
        have h2 := hs.2 h
        omega)

set_option maxRecDepth 100000 in
set_option maxHeartbeats 1000000 in
/-- C2 (amended): the budget check gates solely on the hourly ceiling —
`_check_tiingo_limits` returns false exactly when `tiingo_requests_used`
has reached `tiingo_hourly_limit` (the daily limit field is never
consulted) — and along every operation trace the counter never exceeds the
hourly limit it started under; concretely, 50 fresh requests on a fresh
manager drive the counter to exactly 50, after which the check rejects and
the 51st request contacts no Tiingo endpoint. -/
theorem c2_hourly_gate_only :
    (∀ s : SDM, (checkTiingoLimits s).1 = false
        ↔ s.tiingoHourlyLimit ≤ s.tiingoRequestsUsed)
    ∧ (∀ (s : SDM) (ops : List Op),
        s.tiingoRequestsUsed ≤ s.tiingoHourlyLimit →
          (runTrace s ops).1.tiingoRequestsUsed
            ≤ (runTrace s ops).1.tiingoHourlyLimit)
    ∧ ((runTrace freshSDM fiftyFetches).1.tiingoRequestsUsed = 50
       ∧ (checkTiingoLimits (runTrace freshSDM fiftyFetches).1).1 = false
       ∧ (runOp (runTrace freshSDM fiftyFetches).1 (Op.fetch "SX" 0)).2 = 0) := by
  refine ⟨?_, ?_, by decide, by decide, by decide⟩
  · intro s
    by_cases h : s.tiingoHourlyLimit ≤ s.tiingoRequestsUsed <;>
      simp [checkTiingoLimits, h]
  · intro s ops h
    exact runTraceAux_inv ops (s, 0) h

set_option maxRecDepth 100000 in
/-- C2 (witness): the trace invariant at a fresh manager running fifty
requests. -/
theorem c2_hourly_gate_only_witness :
    (runTrace freshSDM fiftyFetches).1.tiingoRequestsUsed
      ≤ (runTrace freshSDM fiftyFetches).1.tiingoHourlyLimit :=
  c2_hourly_gate_only.2.1 freshSDM fiftyFetches (by decide)

set_option maxRecDepth 100000 in
set_option maxHeartbeats 4000000 in
/-- C2 (counterexample): nothing enforces the daily ceiling.  Over one
wall-clock day (21 hourly screens of the same 50 symbols, 61 minutes apart,
spanning 20h20m, with the hourly reset the source docstring tells the
operator to schedule after each), the manager issues 1050 Tiingo calls —
every one individually allowed by `_check_tiingo_limits` — although
`tiingo_daily_limit` is 1000: the check never returns false on account of
the daily ceiling, because the code never consults it. -/
theorem c2_daily_ceiling_counterexample :
    (runTrace freshSDM dayTrace).2 = 1050
    ∧ freshSDM.tiingoDailyLimit = 1000
    ∧ dayTrace.all (fun op =>
        match op with
        | .fetch _ t => decide (0 ≤ t ∧ t ≤ 86400)
        | .reset => true) = true := by
  exact ⟨by decide, by decide, by decide⟩

/-- Helper: once the fallback latch is set, the body of one batch iteration
keeps it set, logs no Tiingo contact, and records no fundamentals. -/
theorem batchStepAfter_latched (stdDev : List ℚ → ℚ) (sqrt252 : ℚ)
    (inc : Bool) (fs fe : String) (now : ℤ)
    (acc : List BatchEntry × SDM × List Event) (item : String × SymOracle)
    (r : FetchResult)
    (hr1 : r.state.fallbackActive = true)
    (hr2 : r.events.all Event.isYahoo = true)
    (h2 : acc.2.2.all Event.isYahoo = true)
    (h3 : ∀ e ∈ acc.1, e.fundamentals = none) :
    (batchStepAfter stdDev sqrt252 inc fs fe now acc item r).2.1.fallbackActive = true
    ∧ (batchStepAfter stdDev sqrt252 inc fs fe now acc item r).2.2.all Event.isYahoo = true
    ∧ ∀ e ∈ (batchStepAfter stdDev sqrt252 inc fs fe now acc item r).1,
        e.fundamentals = none := by
  obtain ⟨rd, rs, re⟩ := r
  simp only at hr1 hr2
  cases rd with
  | none =>
    refine ⟨hr1, ?_, h3⟩
    show (acc.2.2 ++ re).all Event.isYahoo = true
    rw [List.all_append, h2, hr2]; rfl
  | some d =>
    simp only [batchStepAfter, hr1, Bool.not_true, Bool.and_false,
      Bool.false_eq_true, if_false]
    constructor
    · split <;> first | rfl | exact hr1
    · constructor
      · show ((acc.2.2 ++ re ++ []).all Event.isYahoo) = true
        rw [List.append_nil, List.all_append, h2, hr2]; rfl
      · intro e he
        rcases List.mem_append.mp he with h | h
        · exact h3 e h
        · simp only [List.mem_singleton] at h
          rw [h]

/-- Helper: once the fallback latch is set, one whole batch iteration
preserves the latch, the all-Yahoo event log, and the absence of
fundamentals. -/
theorem batchStep_latched (stdDev : List ℚ → ℚ) (sqrt252 : ℚ) (inc : Bool)
    (sd ed fs fe : String) (now : ℤ)
    (acc : List BatchEntry × SDM × List Event) (item : String × SymOracle)
    (h1 : acc.2.1.fallbackActive = true)
    (h2 : acc.2.2.all Event.isYahoo = true)
    (h3 : ∀ e ∈ acc.1, e.fundamentals = none) :
    (batchStep stdDev sqrt252 inc sd ed fs fe now acc item).2.1.fallbackActive = true
    ∧ (batchStep stdDev sqrt252 inc sd ed fs fe now acc item).2.2.all Event.isYahoo = true
    ∧ ∀ e ∈ (batchStep stdDev sqrt252 inc sd ed fs fe now acc item).1,
        e.fundamentals = none := by
  have hg := (getStockData_spec acc.2.1 item.1 sd ed false item.2.stock
    item.2.yahoo now).2.2 h1
  exact batchStepAfter_latched stdDev sqrt252 inc fs fe now acc item _
    hg.1 hg.2 h2 h3

/-- Helper: the latched invariant carries through the whole symbol loop. -/
theorem batchFold_latched (stdDev : List ℚ → ℚ) (sqrt252 : ℚ) (inc : Bool)
    (sd ed fs fe : String) (now : ℤ) :
    ∀ (items : List (String × SymOracle)) (acc : List BatchEntry × SDM × List Event),
      acc.2.1.fallbackActive = true →
      acc.2.2.all Event.isYahoo = true →
      (∀ e ∈ acc.1, e.fundamentals = none) →
      (items.foldl (batchStep stdDev sqrt252 inc sd ed fs fe now) acc).2.1.fallbackActive = true
      ∧ (items.foldl (batchStep stdDev sqrt252 inc sd ed fs fe now) acc).2.2.all Event.isYahoo = true
      ∧ ∀ e ∈ (items.foldl (batchStep stdDev sqrt252 inc sd ed fs fe now) acc).1,
          e.fundamentals = none
  | [], _, h1, h2, h3 => ⟨h1, h2, h3⟩
  | item :: items, acc, h1, h2, h3 => by
    have hs := batchStep_latched stdDev sqrt252 inc sd ed fs fe now acc item h1 h2 h3
    exact batchFold_latched stdDev sqrt252 inc sd ed fs fe now items
      (batchStep stdDev sqrt252 inc sd ed fs fe now acc item) hs.1 hs.2.1 hs.2.2

/-- Helper: after any processed symbol (one that did not hit `continue`),
either the latch is already set or the counter is still strictly below
`hourly_limit - 2`. -/
theorem batchStepAfter_latch_trigger (stdDev : List ℚ → ℚ) (sqrt252 : ℚ)
    (inc : Bool) (fs fe : String) (now : ℤ)
    (acc : List BatchEntry × SDM × List Event) (item : String × SymOracle)
    (r : FetchResult) :
    (batchStepAfter stdDev sqrt252 inc fs fe now acc item r).1 = acc.1
    ∨ ((batchStepAfter stdDev sqrt252 inc fs fe now acc item r).2.1.fallbackActive = true
       ∨ (batchStepAfter stdDev sqrt252 inc fs fe now acc item r).2.1.tiingoRequestsUsed
           < (batchStepAfter stdDev sqrt252 inc fs fe now acc item r).2.1.tiingoHourlyLimit - 2) := by
  obtain ⟨rd, rs, re⟩ := r
  cases rd with
  | none => exact Or.inl rfl
  | some d =>
    simp only [batchStepAfter]
    split
    · split
      · exact Or.inr (Or.inl rfl)
      · next hlt => exact Or.inr (Or.inr (by omega))
    · split
      · exact Or.inr (Or.inl rfl)
      · next hlt => exact Or.inr (Or.inr (by omega))

/-- C10 (amended): once `fallback_active` is latched, the rest of the batch
run never contacts Tiingo again — every logged fetch is a Yahoo fetch, no
result carries fundamentals, and the latch stays set to the end of the run;
and after every symbol iteration that processed data, either the counter is
still strictly below `hourly_limit - 2` or the latch has been set.  (The
claim's further assertion that every remaining symbol is *fetched from
Yahoo* fails: a symbol with a valid cache entry is served from the cache,
possibly with a Tiingo source tag — see the counterexample.) -/
theorem c10_fallback_latch :
    (∀ (stdDev : List ℚ → ℚ) (sqrt252 : ℚ) (inc : Bool)
       (sd ed fs fe : String) (now : ℤ) (s : SDM)
       (items : List (String × SymOracle)),
      s.fallbackActive = true →
        (batchAnalyzeSymbols stdDev sqrt252 inc sd ed fs fe now s items).2.1.fallbackActive = true
        ∧ (batchAnalyzeSymbols stdDev sqrt252 inc sd ed fs fe now s items).2.2.all Event.isYahoo = true
        ∧ ∀ e ∈ (batchAnalyzeSymbols stdDev sqrt252 inc sd ed fs fe now s items).1,
            e.fundamentals = none)
    ∧ (∀ (stdDev : List ℚ → ℚ) (sqrt252 : ℚ) (inc : Bool)
         (sd ed fs fe : String) (now : ℤ)
         (acc : List BatchEntry × SDM × List Event) (item : String × SymOracle),
        (batchStep stdDev sqrt252 inc sd ed fs fe now acc item).1 = acc.1
        ∨ ((batchStep stdDev sqrt252 inc sd ed fs fe now acc item).2.1.fallbackActive = true
           ∨ (batchStep stdDev sqrt252 inc sd ed fs fe now acc item).2.1.tiingoRequestsUsed
               < (batchStep stdDev sqrt252 inc sd ed fs fe now acc item).2.1.tiingoHourlyLimit - 2)) := by
  constructor
  · intro stdDev sqrt252 inc sd ed fs fe now s items h
    exact batchFold_latched stdDev sqrt252 inc sd ed fs fe now items ([], s, [])
      h rfl (by intro e he; cases he)
  · intro stdDev sqrt252 inc sd ed fs fe now acc item
    exact batchStepAfter_latch_trigger stdDev sqrt252 inc fs fe now acc item _

/-- C10 (witness): the latched-run clause at a fresh manager whose latch is
set, over the two-symbol batch. -/
theorem c10_fallback_latch_witness :
    (batchAnalyzeSymbols (fun _ => 0) 0 true "d1" "d2" "f1" "f2" 0
        { freshSDM with fallbackActive := true } twoSymbolBatch).2.1.fallbackActive = true
    ∧ (batchAnalyzeSymbols (fun _ => 0) 0 true "d1" "d2" "f1" "f2" 0
        { freshSDM with fallbackActive := true } twoSymbolBatch).2.2.all Event.isYahoo = true
    ∧ ∀ e ∈ (batchAnalyzeSymbols (fun _ => 0) 0 true "d1" "d2" "f1" "f2" 0
        { freshSDM with fallbackActive := true } twoSymbolBatch).1,
        e.fundamentals = none :=
  c10_fallback_latch.1 (fun _ => 0) 0 true "d1" "d2" "f1" "f2" 0
    { freshSDM with fallbackActive := true } twoSymbolBatch rfl

/-- C10 (counterexample): a remaining symbol is not necessarily fetched from
Yahoo after the latch.  From a manager at 48 of 50 requests holding a valid
Tiingo-sourced cache entry for `B`, the batch `[A, B]` fetches `A` from
Tiingo (reaching 49 and latching the fallback), and then serves `B` — a
symbol remaining after the latch — from the cache: the complete event log of
the run is the single Tiingo fetch for `A`, no Yahoo fetch ever happens, and
neither result carries a `yahoo` source tag (both payloads are
Tiingo-fetched dicts, whose missing source key reads back as "unknown"). -/
theorem c10_cached_symbol_counterexample :
    (batchAnalyzeSymbols (fun _ => 0) 0 false "d1" "d2" "f1" "f2" 0
        nearLimitMgr twoSymbolBatch).2.2 = [Event.tiingoStock "A"]
    ∧ (batchAnalyzeSymbols (fun _ => 0) 0 false "d1" "d2" "f1" "f2" 0
        nearLimitMgr twoSymbolBatch).2.1.fallbackActive = true
    ∧ (batchAnalyzeSymbols (fun _ => 0) 0 false "d1" "d2" "f1" "f2" 0
        nearLimitMgr twoSymbolBatch).1.map BatchEntry.dataSource = ["unknown", "unknown"]
    ∧ (batchAnalyzeSymbols (fun _ => 0) 0 false "d1" "d2" "f1" "f2" 0
        nearLimitMgr twoSymbolBatch).2.1.tiingoRequestsUsed = 49 := by
  exact ⟨by decide, by decide, by decide, by decide⟩

end AITrader

